import Mathlib

/-
Verification development for a small single-page task-management client.
The client consists of an HTTP wrapper that attaches a bearer token header
(services/api.js), two auth request functions (services/authService.js),
and a single view component (App.js) holding form state, client-side
validation, and CRUD handlers over tasks.

The embedding below translates the JavaScript handlers into pure Lean
functions over an explicit application state. JavaScript string truthiness
(a string is falsy exactly when it is empty) is made explicit, and the
JavaScript object used for form field errors is modelled as an ordered
association list with in-place overwrite on an existing key, matching
object assignment semantics.
-/

namespace TaskClient

/-- JavaScript truthiness of a string: falsy exactly on the empty string. -/
def truthy (s : String) : Bool := s != ""

/-- Character class of the regex fragment [^\s@]: any character that is
neither whitespace nor the at sign. -/
def okChar (c : Char) : Bool := !(c.isWhitespace) && !(c = '@')

/-- Test of the anchored regex from App.js line 17:
regex ^[^\s@]+@[^\s@]+\.[^\s@]+$ over the whole string.
A string matches exactly when it splits as a nonempty at-sign-free,
whitespace-free part, a single at sign, and a remainder that is
at-sign-free and whitespace-free and contains a dot that is neither its
first nor its last character. Because the regex allows the dot character
inside every bracket class, the remainder may contain further dots. -/
def emailRegexTest (s : String) : Bool :=
  let cs := s.toList
  match cs.findIdx? (fun c => c = '@') with
  | none => false
  | some k =>
    let a := cs.take k
    let m := cs.drop (k + 1)
    !a.isEmpty && a.all okChar && !m.isEmpty && m.all okChar &&
      ((m.drop 1).dropLast).contains '.'

/-- validateEmail from App.js lines 15-20. The source guard if not value
is the JavaScript empty-string test. -/
def validateEmail (value : String) : String :=
  if value = "" then "Email is required"
  else if !(emailRegexTest value) then "Invalid email"
  else ""

/-- validatePassword from App.js lines 22-32, with the captured isLogin
flag lifted to an explicit parameter. The signup-mode character classes
are the ASCII ranges of the source regexes. -/
def validatePassword (isLogin : Bool) (value : String) : String :=
  if value = "" then "Password is required"
  else if isLogin then ""
  else if value.length < 8 then "Password must be at least 8 characters"
  else if !(value.toList.any (fun c => 'A' ≤ c && c ≤ 'Z')) then
    "Must contain an uppercase letter"
  else if !(value.toList.any (fun c => 'a' ≤ c && c ≤ 'z')) then
    "Must contain a lowercase letter"
  else if !(value.toList.any (fun c => '0' ≤ c && c ≤ '9')) then
    "Must contain a number"
  else if !(value.toList.any (fun c => ("@$!%*?&").toList.contains c)) then
    "Must contain a special character @$!%*?&"
  else ""

/-- A task record as the client sees it: the server id and the three
user-visible fields. -/
structure Task where
  _id : String
  title : String
  description : String
  status : String
deriving DecidableEq

/-- Body of a task create or task update request from handleSubmit
(App.js lines 156-160): title, description and status only. -/
structure TaskCreateBody where
  title : String
  description : String
  status : String
deriving DecidableEq

/-- A server-supplied field error as it appears in the errors array of a
400 response body: a field path and a message. -/
structure FieldError where
  path : String
  msg : String
deriving DecidableEq

/-- A toast notification: message and bootstrap variant. -/
structure ToastMsg where
  msg : String
  variant : String
deriving DecidableEq

/-- JavaScript object assignment obj[k] = v on an object modelled as an
ordered association list: overwrite in place when the key exists,
otherwise append. -/
def objSet : List (String × String) → String → String → List (String × String)
  | [], k, v => [(k, v)]
  | (k0, v0) :: rest, k, v =>
    if k0 = k then (k, v) :: rest else (k0, v0) :: objSet rest k v

/-- JavaScript object property read obj[k] on the same model. -/
def objGet : List (String × String) → String → Option String
  | [], _ => none
  | (k0, v0) :: rest, k => if k0 = k then some v0 else objGet rest k

/-- The forEach loop of handleSubmit on a 400 response (App.js lines
166-168): build a fresh object and assign each error message at its path. -/
def applyFieldErrors (errs : List FieldError) : List (String × String) :=
  errs.foldl (fun m e => objSet m e.path e.msg) []

/-- JavaScript string disjunction a or-else b: b exactly when a is falsy. -/
def jsOr (a b : String) : String := if a = "" then b else a

/-- Message selection in the AuthForm submit catch (App.js line 61):
first errors entry message, or-else the response message, or-else the
fallback text Auth failed. Absent optional fields read as empty. -/
def authErrMsg (errs : List FieldError) (message : Option String) : String :=
  jsOr ((errs.head?.map FieldError.msg).getD "") (jsOr (message.getD "") "Auth failed")

/-- State of the App component: the stored token (client-local persistent
storage), the userLoaded flag selecting the authenticated view, the task
list, the add/edit form fields, the form field errors, the toast, and the
delete-confirmation modal state. -/
structure AppState where
  token : Option String
  userLoaded : Bool
  tasks : List Task
  title : String
  description : String
  editingTask : Option Task
  fieldErrors : List (String × String)
  toast : Option ToastMsg
  showDeleteModal : Bool
  deleteTaskId : Option String
deriving DecidableEq

/-- showToast from App.js line 124. -/
def showToastS (msg variant : String) (s : AppState) : AppState :=
  { s with toast := some ⟨msg, variant⟩ }

/-- Success continuation of loadTasks (App.js line 138). -/
def loadTasksOnSuccess (ts : List Task) (s : AppState) : AppState :=
  { s with tasks := ts }

/-- Error continuation of loadTasks (App.js lines 139-145): the status of
the failed response is inspected, and only a 401 changes the state, by
removing the token, leaving the authenticated view and showing a toast.
Every other failure is only logged to the console. -/
def loadTasksOnError (status : Option Nat) (s : AppState) : AppState :=
  if status = some 401 then
    showToastS "Session expired, please login" "danger"
      { s with token := none, userLoaded := false }
  else s

/-- The request chosen by handleSubmit (App.js lines 156-160): an update
of the edited task when one is being edited, otherwise a create whose
body always carries status pending. -/
inductive SubmitRequest where
  | createReq (body : TaskCreateBody)
  | updateReq (id : String) (body : TaskCreateBody)
deriving DecidableEq

/-- Request selection of handleSubmit from the form state. -/
def handleSubmitRequest (s : AppState) : SubmitRequest :=
  match s.editingTask with
  | some t => SubmitRequest.updateReq t._id (TaskCreateBody.mk s.title s.description t.status)
  | none => SubmitRequest.createReq (TaskCreateBody.mk s.title s.description "pending")

/-- Success continuation of handleSubmit (App.js lines 161-163): field
errors were reset on entry, the form is cleared, and the toast text is
chosen from the editingTask binding captured before it is cleared. -/
def handleSubmitOnSuccess (s : AppState) : AppState :=
  let s0 := { s with fieldErrors := [] }
  showToastS (if s.editingTask.isSome then "Task updated" else "Task added") "success"
    { s0 with title := "", description := "", editingTask := none }

/-- Error continuation of handleSubmit (App.js lines 164-174). Field
errors were reset to the empty object on entry to the handler. A 400
response maps its errors array onto the form fields by path; a 401
removes the token and leaves the authenticated view; anything else only
shows a generic toast. -/
def handleSubmitOnError (status : Option Nat) (errs : List FieldError)
    (s : AppState) : AppState :=
  let s0 := { s with fieldErrors := [] }
  if status = some 400 then
    showToastS "Fix the form errors" "danger"
      { s0 with fieldErrors := applyFieldErrors errs }
  else if status = some 401 then
    showToastS "Session expired" "danger"
      { s0 with token := none, userLoaded := false }
  else
    showToastS "Request failed" "danger" s0

/-- Body of the update request sent by toggleStatus (App.js line 179):
the spread of the whole task with only the status replaced, done when the
status was pending and pending otherwise. -/
def toggleStatusBody (t : Task) : Task :=
  { t with status := if t.status = "pending" then "done" else "pending" }

/-- Error continuation of toggleStatus (App.js line 180): the catch
clause binds no error and inspects nothing, so the response status is
ignored and only a toast is shown. -/
def toggleStatusOnError (_status : Option Nat) (s : AppState) : AppState :=
  showToastS "Update failed" "danger" s

/-- Success continuation of handleDeleteConfirm (App.js lines 184-187),
including the finally block closing the modal. -/
def handleDeleteOnSuccess (s : AppState) : AppState :=
  { showToastS "Task deleted" "success" s with
      showDeleteModal := false, deleteTaskId := none }

/-- Error continuation of handleDeleteConfirm (App.js lines 184-187):
the catch clause binds no error, so the response status is ignored; the
finally block closes the modal. -/
def handleDeleteOnError (_status : Option Nat) (s : AppState) : AppState :=
  { showToastS "Delete failed" "danger" s with
      showDeleteModal := false, deleteTaskId := none }

/-- Success continuation of the AuthForm submit (App.js lines 57-59) as
it acts on the application: the returned token from the response body is
written to storage, a toast is shown, and onAuthSuccess switches to the
authenticated view. -/
def authSubmitOnSuccess (respToken : String) (s : AppState) : AppState :=
  showToastS "Logged in successfully" "success"
    { s with token := some respToken, userLoaded := true }

/-- logout from App.js line 190. -/
def logoutS (s : AppState) : AppState :=
  showToastS "Logged out" "success"
    { s with token := none, userLoaded := false, tasks := [] }

/-- Local state of the AuthForm component. -/
structure AuthState where
  isLogin : Bool
  email : String
  password : String
  fieldErrors : List (String × String)
  loading : Bool
deriving DecidableEq

/-- Error continuation of the AuthForm submit (App.js lines 60-66): the
selected message is written under the form key of the field errors (not
under the per-field paths of the response), loading is reset, and the
same message is shown as a danger toast. -/
def authSubmitOnError (errs : List FieldError) (message : Option String)
    (a : AuthState) : AuthState × ToastMsg :=
  ({ a with fieldErrors := objSet a.fieldErrors "form" (authErrMsg errs message),
            loading := false },
   ⟨authErrMsg errs message, "danger"⟩)

/-- Field errors written by the AuthForm submit before the guard (App.js
line 49): a fresh object with the two computed validation results. -/
def authSubmitFieldErrors (isLogin : Bool) (email password : String) :
    List (String × String) :=
  [("email", validateEmail email), ("password", validatePassword isLogin password)]

/-- The guard of the AuthForm submit (App.js line 51): the request branch
runs exactly when neither validation result is truthy. -/
def authSubmitProceeds (isLogin : Bool) (email password : String) : Bool :=
  !(truthy (validateEmail email) || truthy (validatePassword isLogin password))

/-- The request interceptor of services/api.js lines 9-13: the stored
token is read, and the Authorization header is set to Bearer followed by
the token when the read value is truthy. A missing token reads as null
and an empty string is falsy, so in both cases no header is attached. -/
def authHeader (stored : Option String) : Option String :=
  match stored with
  | none => none
  | some t => if truthy t then some ("Bearer " ++ t) else none

/-- The network requests the client can issue. The two task-list loads
triggered by one successful login are distinguished as getTasksA (the
direct call in handleAuthSuccess, App.js line 150) and getTasksB (the
call made by the effect of App.js line 148 when userLoaded changes). -/
inductive NetReq where
  | authPost
  | getTasksA
  | getTasksB
  | putTaskReq
  | postTaskReq
  | deleteTaskReq
deriving DecidableEq

/-- A network event: a request is issued, or its response arrives. -/
inductive NetEv where
  | start (r : NetReq)
  | finish (r : NetReq)
deriving DecidableEq

/-- Running maximum of the number of in-flight requests along a trace. -/
def maxInFlightAux : Nat → Nat → List NetEv → Nat
  | _, mx, [] => mx
  | cur, mx, NetEv.start _ :: rest => maxInFlightAux (cur + 1) (max mx (cur + 1)) rest
  | cur, mx, NetEv.finish _ :: rest => maxInFlightAux (cur - 1) mx rest

/-- The largest number of requests simultaneously in flight on a trace. -/
def maxInFlight (tr : List NetEv) : Nat := maxInFlightAux 0 0 tr

/-- A trace is serial when no two requests are ever in flight at once:
every request is issued only after the previous one has completed. -/
abbrev SerialTrace (tr : List NetEv) : Prop := maxInFlight tr ≤ 1

/-- Trace of loadTasks (App.js lines 132-146): one awaited GET. -/
def loadTasksTrace : List NetEv :=
  [NetEv.start NetReq.getTasksA, NetEv.finish NetReq.getTasksA]

/-- Trace of a successful handleSubmit (App.js lines 152-163): the
awaited PUT or POST completes, then loadTasks issues its GET. -/
def handleSubmitSuccessTrace (editing : Bool) : List NetEv :=
  [NetEv.start (if editing then NetReq.putTaskReq else NetReq.postTaskReq),
   NetEv.finish (if editing then NetReq.putTaskReq else NetReq.postTaskReq)]
  ++ loadTasksTrace

/-- Trace of a failing handleSubmit: the awaited request completes with
an error and no reload is issued. -/
def handleSubmitErrorTrace (editing : Bool) : List NetEv :=
  [NetEv.start (if editing then NetReq.putTaskReq else NetReq.postTaskReq),
   NetEv.finish (if editing then NetReq.putTaskReq else NetReq.postTaskReq)]

/-- Trace of a successful toggleStatus (App.js line 179): the awaited PUT
completes, then loadTasks issues its GET. -/
def toggleStatusSuccessTrace : List NetEv :=
  [NetEv.start NetReq.putTaskReq, NetEv.finish NetReq.putTaskReq] ++ loadTasksTrace

/-- Trace of a failing toggleStatus: the awaited PUT completes with an
error and no reload is issued. -/
def toggleStatusErrorTrace : List NetEv :=
  [NetEv.start NetReq.putTaskReq, NetEv.finish NetReq.putTaskReq]

/-- Trace of a successful handleDeleteConfirm (App.js lines 184-188). -/
def handleDeleteSuccessTrace : List NetEv :=
  [NetEv.start NetReq.deleteTaskReq, NetEv.finish NetReq.deleteTaskReq] ++ loadTasksTrace

/-- Trace of a failing handleDeleteConfirm. -/
def handleDeleteErrorTrace : List NetEv :=
  [NetEv.start NetReq.deleteTaskReq, NetEv.finish NetReq.deleteTaskReq]

/-- Trace of the search action (App.js line 245): one loadTasks call. -/
def searchTrace : List NetEv := loadTasksTrace

/-- Trace of a failing AuthForm submit: only the awaited auth POST. -/
def authSubmitErrorTrace : List NetEv :=
  [NetEv.start NetReq.authPost, NetEv.finish NetReq.authPost]

/-- Trace of a successful AuthForm submit. After the awaited auth POST
completes, onAuthSuccess (App.js line 150) calls loadTasks directly,
issuing the first GET, and also sets userLoaded; that state change
re-runs the effect of App.js line 148, whose dependency list contains
userLoaded, so a second loadTasks issues another GET during the same
render cycle, before the network response to the first GET arrives.
Both GETs are therefore in flight together until their responses come
back. -/
def authSubmitSuccessTrace : List NetEv :=
  [NetEv.start NetReq.authPost, NetEv.finish NetReq.authPost,
   NetEv.start NetReq.getTasksA, NetEv.start NetReq.getTasksB,
   NetEv.finish NetReq.getTasksA, NetEv.finish NetReq.getTasksB]

/-- Reading back the key just assigned yields the assigned value. -/
theorem objGet_objSet_self (m : List (String × String)) (k v : String) :
    objGet (objSet m k v) k = some v := by
  induction m with
  | nil => simp [objSet, objGet]
  | cons hd tl ih =>
    by_cases h : hd.1 = k
    · simp [objSet, objGet, h]
    · cases hd with
      | mk k0 v0 =>
        simp only at h
        simp [objSet, objGet, h, ih]

/-- Assignment at one key leaves the value read at another key unchanged. -/
theorem objGet_objSet_other (m : List (String × String)) (k v q : String)
    (h : q ≠ k) : objGet (objSet m k v) q = objGet m q := by
  induction m with
  | nil => simp [objSet, objGet, Ne.symm h]
  | cons hd tl ih =>
    cases hd with
    | mk k0 v0 =>
      by_cases hk : k0 = k
      · subst hk
        simp [objSet, objGet, Ne.symm h]
      · by_cases hq : k0 = q
        · subst hq
          simp [objSet, objGet, hk]
        · simp [objSet, objGet, hk, hq, ih]

/-- A fold of assignments whose keys all differ from q does not change
the value read at q. -/
theorem objGet_foldl_of_not_mem (errs : List FieldError)
    (m : List (String × String)) (q : String)
    (h : ∀ e ∈ errs, e.path ≠ q) :
    objGet (errs.foldl (fun acc e => objSet acc e.path e.msg) m) q = objGet m q := by
  induction errs generalizing m with
  | nil => simp
  | cons hd tl ih =>
    simp only [List.foldl_cons]
    rw [ih (objSet m hd.path hd.msg) (fun e he => h e (List.mem_cons_of_mem hd he)),
        objGet_objSet_other m hd.path hd.msg q
          (fun hq => h hd (List.mem_cons_self hd tl) hq.symm)]

/-- When the error paths are pairwise distinct, the fold of assignments
maps every listed error path to its listed message, whatever the initial
object holds at those keys. -/
theorem objGet_foldl_maps (errs : List FieldError) (m : List (String × String))
    (hnd : (errs.map FieldError.path).Nodup) (e : FieldError) (he : e ∈ errs) :
    objGet (errs.foldl (fun acc x => objSet acc x.path x.msg) m) e.path = some e.msg := by
  induction errs generalizing m with
  | nil => cases he
  | cons hd tl ih =>
    simp only [List.map_cons, List.nodup_cons] at hnd
    rcases List.mem_cons.mp he with rfl | htl
    · simp only [List.foldl_cons]
      rw [objGet_foldl_of_not_mem tl (objSet m e.path e.msg) e.path
            (fun x hx hxp => hnd.1 (hxp ▸ List.mem_map_of_mem FieldError.path hx)),
          objGet_objSet_self]
    · simpa using ih (objSet m hd.path hd.msg) hnd.2 htl

/-- Claim C1, counterexample: a status toggle that fails with a 401
response leaves the stored token in place and stays on the authenticated
view, and so does a failing delete, because both catch clauses ignore the
response status; the claim that every operation clears the token on a 401
is therefore false on the code. -/
theorem claim1_cex :
    (toggleStatusOnError (some 401)
      (AppState.mk (some "tok") true [] "" "" none [] none false none)).token = some "tok" ∧
    (toggleStatusOnError (some 401)
      (AppState.mk (some "tok") true [] "" "" none [] none false none)).userLoaded = true ∧
    (handleDeleteOnError (some 401)
      (AppState.mk (some "tok") true [] "" "" none [] none false none)).token = some "tok" ∧
    (handleDeleteOnError (some 401)
      (AppState.mk (some "tok") true [] "" "" none [] none false none)).userLoaded = true := by
  decide

/-- Claim C1, amended: a 401 on the task-list load or on the task
create/update submit clears the stored token and returns to the
unauthenticated view; a 401 on the status toggle or on the delete does
neither, leaving token and view untouched and only showing a failure
toast. -/
theorem claim1_amended :
    (∀ s : AppState, (loadTasksOnError (some 401) s).token = none ∧
      (loadTasksOnError (some 401) s).userLoaded = false) ∧
    (∀ (errs : List FieldError) (s : AppState),
      (handleSubmitOnError (some 401) errs s).token = none ∧
      (handleSubmitOnError (some 401) errs s).userLoaded = false) ∧
    (∀ (st : Option Nat) (s : AppState),
      (toggleStatusOnError st s).token = s.token ∧
      (toggleStatusOnError st s).userLoaded = s.userLoaded) ∧
    (∀ (st : Option Nat) (s : AppState),
      (handleDeleteOnError st s).token = s.token ∧
      (handleDeleteOnError st s).userLoaded = s.userLoaded) := by
  refine ⟨fun s => ?_, fun errs s => ?_, fun st s => ⟨rfl, rfl⟩, fun st s => ⟨rfl, rfl⟩⟩
  · constructor <;> simp [loadTasksOnError, showToastS]
  · constructor <;> simp [handleSubmitOnError, showToastS]

/-- Claim C2: the stored token is set exactly when an auth submit
succeeds, and then to the token of the response body; it is cleared on
logout; and no other transition of the client ever sets it: each either
preserves the stored token or clears it. -/
theorem claim2_thm :
    (∀ (tok : String) (s : AppState), (authSubmitOnSuccess tok s).token = some tok) ∧
    (∀ s : AppState, (logoutS s).token = none) ∧
    (∀ (ts : List Task) (s : AppState), (loadTasksOnSuccess ts s).token = s.token) ∧
    (∀ (st : Option Nat) (s : AppState),
      (loadTasksOnError st s).token = s.token ∨ (loadTasksOnError st s).token = none) ∧
    (∀ s : AppState, (handleSubmitOnSuccess s).token = s.token) ∧
    (∀ (st : Option Nat) (errs : List FieldError) (s : AppState),
      (handleSubmitOnError st errs s).token = s.token ∨
      (handleSubmitOnError st errs s).token = none) ∧
    (∀ (st : Option Nat) (s : AppState), (toggleStatusOnError st s).token = s.token) ∧
    (∀ s : AppState, (handleDeleteOnSuccess s).token = s.token) ∧
    (∀ (st : Option Nat) (s : AppState), (handleDeleteOnError st s).token = s.token) := by
  refine ⟨fun tok s => rfl, fun s => rfl, fun ts s => rfl, fun st s => ?_, fun s => rfl,
    fun st errs s => ?_, fun st s => rfl, fun s => rfl, fun st s => rfl⟩
  · by_cases h : st = some 401
    · right
      simp [loadTasksOnError, h, showToastS]
    · left
      simp [loadTasksOnError, h]
  · by_cases h4 : st = some 400
    · left
      simp [handleSubmitOnError, h4, showToastS]
    · by_cases h1 : st = some 401
      · right
        simp [handleSubmitOnError, h4, h1, showToastS]
      · left
        simp [handleSubmitOnError, h4, h1, showToastS]

/-- Claim C3, counterexample: a task-list load that fails with status 500
produces no toast notification at all, because loadTasks only logs
non-401 failures to the console; the claim that every error of every
operation is surfaced as a toast is therefore false on the code. -/
theorem claim3_cex :
    (loadTasksOnError (some 500)
      (AppState.mk (some "tok") true [] "" "" none [] none false none)).toast = none := by
  decide

/-- Claim C3, amended: every error of the auth submit and of the task
create, update, toggle and delete operations is surfaced as a toast, and
so is a 401 on the task-list load; a non-401 task-list load error is only
logged and shows no notification, leaving the toast state unchanged. -/
theorem claim3_amended :
    (∀ (st : Option Nat) (s : AppState), st ≠ some 401 →
      (loadTasksOnError st s).toast = s.toast) ∧
    (∀ s : AppState, (loadTasksOnError (some 401) s).toast =
      some ⟨"Session expired, please login", "danger"⟩) ∧
    (∀ (st : Option Nat) (errs : List FieldError) (s : AppState),
      ((handleSubmitOnError st errs s).toast).isSome = true) ∧
    (∀ (st : Option Nat) (s : AppState), ((toggleStatusOnError st s).toast).isSome = true) ∧
    (∀ (st : Option Nat) (s : AppState), ((handleDeleteOnError st s).toast).isSome = true) ∧
    (∀ (errs : List FieldError) (m : Option String) (a : AuthState),
      (authSubmitOnError errs m a).2 = ⟨authErrMsg errs m, "danger"⟩) := by
  refine ⟨fun st s h => ?_, fun s => ?_, fun st errs s => ?_, fun st s => rfl,
    fun st s => rfl, fun errs m a => rfl⟩
  · simp [loadTasksOnError, h]
  · simp [loadTasksOnError, showToastS]
  · simp only [handleSubmitOnError]
    split
    · simp [showToastS]
    · split <;> simp [showToastS]

/-- Claim C3, witness: instantiating the amended statement at a concrete
500 failure of the task-list load on a state with no toast showing. -/
theorem claim3_witness :
    ((some 500 : Option Nat) ≠ some 401) ∧
    (loadTasksOnError (some 500)
      (AppState.mk none false [] "" "" none [] none false none)).toast =
      (AppState.mk none false [] "" "" none [] none false none).toast :=
  ⟨by decide, claim3_amended.1 (some 500)
    (AppState.mk none false [] "" "" none [] none false none) (by decide)⟩

/-- Claim C4, counterexample: a 400 response to an auth submission whose
errors array names the path email is not mapped onto the email field; the
AuthForm catch writes only the first error message under the key form, so
the per-field mapping claimed for every 400 response fails on the code. -/
theorem claim4_cex :
    objGet ((authSubmitOnError [FieldError.mk "email" "bad"] none
      (AuthState.mk true "e@a.b" "pw" [] false)).1.fieldErrors) "email" = none ∧
    objGet ((authSubmitOnError [FieldError.mk "email" "bad"] none
      (AuthState.mk true "e@a.b" "pw" [] false)).1.fieldErrors) "form" = some "bad" := by
  decide

/-- Claim C4, amended: for a 400 response to a task create or update, the
form field errors become exactly the object built from the errors array,
and when the error paths are pairwise distinct each server-supplied field
error is read back at its path with its server-supplied message; for a
400 response to an auth submission, however, only the first error message
is written, under the fixed key form, not at the per-error paths. -/
theorem claim4_amended :
    (∀ errs : List FieldError, (errs.map FieldError.path).Nodup →
      ∀ e ∈ errs, objGet (applyFieldErrors errs) e.path = some e.msg) ∧
    (∀ (errs : List FieldError) (s : AppState),
      (handleSubmitOnError (some 400) errs s).fieldErrors = applyFieldErrors errs) ∧
    (∀ (errs : List FieldError) (m : Option String) (a : AuthState),
      (authSubmitOnError errs m a).1.fieldErrors =
        objSet a.fieldErrors "form" (authErrMsg errs m)) := by
  refine ⟨fun errs hnd e he => ?_, fun errs s => ?_, fun errs m a => rfl⟩
  · exact objGet_foldl_maps errs [] hnd e he
  · simp [handleSubmitOnError, showToastS]

/-- Claim C4, witness: a concrete 400 errors array with one error on the
path title is read back at that path with its message. -/
theorem claim4_witness :
    ([FieldError.mk "title" "Required"].map FieldError.path).Nodup ∧
    objGet (applyFieldErrors [FieldError.mk "title" "Required"]) "title" = some "Required" :=
  ⟨by decide, claim4_amended.1 [FieldError.mk "title" "Required"] (by decide)
    (FieldError.mk "title" "Required") (by decide)⟩

/-- Claim C5, counterexample: client-side validation enforces more than
field presence: the non-empty email aaa is rejected by the email regex,
and in signup mode the non-empty password short is rejected by the length
rule, so the claim that every non-empty input is accepted fails. -/
theorem claim5_cex :
    ("aaa" : String) ≠ "" ∧ validateEmail "aaa" = "Invalid email" ∧
    ("short" : String) ≠ "" ∧
    validatePassword false "short" = "Password must be at least 8 characters" := by
  decide

/-- Claim C5, amended: only login-mode password validation is a pure
presence check, accepting every non-empty password; email validation
additionally requires the email regex to match, and signup-mode password
validation adds length and character-class rules. -/
theorem claim5_amended :
    (∀ p : String, validatePassword true p = "" ↔ p ≠ "") ∧
    (∀ e : String, validateEmail e = "" ↔ (e ≠ "" ∧ emailRegexTest e = true)) := by
  constructor
  · intro p
    by_cases h : p = ""
    · subst h
      decide
    · simp [validatePassword, h]
  · intro e
    by_cases h : e = ""
    · subst h
      decide
    · by_cases hr : emailRegexTest e = true
      · simp [validateEmail, h, hr]
      · simp [validateEmail, h, hr]

/-- Claim C5, witness: the concrete non-empty password pw is accepted by
login-mode validation. -/
theorem claim5_witness :
    ("pw" : String) ≠ "" ∧ validatePassword true "pw" = "" :=
  ⟨by decide, (claim5_amended.1 "pw").mpr (by decide)⟩

/-- Claim C6, counterexample: with an empty-string token present in
storage, the interceptor attaches no Authorization header, because the
JavaScript truthiness guard rejects the empty string; the claimed
equivalence between a stored token and an attached header fails there. -/
theorem claim6_cex :
    ¬(((authHeader (some "")).isSome = true) ↔
      ((some "" : Option String).isSome = true)) := by
  decide

/-- Claim C6, amended: a request carries the header Bearer t exactly when
a non-empty token t is stored; with no stored token, and likewise with an
empty stored token, no Authorization header is attached. -/
theorem claim6_amended :
    (∀ t : String, t ≠ "" → authHeader (some t) = some ("Bearer " ++ t)) ∧
    (authHeader none = none) ∧
    (∀ st : Option String, (authHeader st).isSome = true ↔
      ∃ t, st = some t ∧ t ≠ "") := by
  refine ⟨fun t h => ?_, rfl, fun st => ?_⟩
  · simp [authHeader, truthy, h]
  · cases st with
    | none => simp [authHeader]
    | some t =>
      by_cases h : t = ""
      · subst h
        simp [authHeader, truthy]
      · simp [authHeader, truthy, h]

/-- Claim C6, witness: the concrete non-empty token abc yields the header
value Bearer abc. -/
theorem claim6_witness :
    ("abc" : String) ≠ "" ∧ authHeader (some "abc") = some ("Bearer " ++ "abc") :=
  ⟨by decide, claim6_amended.1 "abc" (by decide)⟩

/-- Claim C7, counterexample: a successful auth submit is a user action
during which two task-list requests are in flight at the same time: the
load called directly by the success callback and the load issued by the
effect reacting to the changed login state overlap, so the trace of this
action is not serial. -/
theorem claim7_cex : ¬SerialTrace authSubmitSuccessTrace := by
  decide

/-- Claim C7, amended: for the task add/update submit, the status toggle,
the delete confirm and the search, at most one request is in flight at any
time, every follow-up load being issued only after the preceding request
completed; a successful auth submit, however, issues two overlapping
task-list loads once the auth request itself has completed, so exactly two
requests are in flight during that action. -/
theorem claim7_amended :
    (∀ e : Bool, SerialTrace (handleSubmitSuccessTrace e)) ∧
    (∀ e : Bool, SerialTrace (handleSubmitErrorTrace e)) ∧
    SerialTrace toggleStatusSuccessTrace ∧
    SerialTrace toggleStatusErrorTrace ∧
    SerialTrace handleDeleteSuccessTrace ∧
    SerialTrace handleDeleteErrorTrace ∧
    SerialTrace searchTrace ∧
    SerialTrace loadTasksTrace ∧
    SerialTrace authSubmitErrorTrace ∧
    maxInFlight authSubmitSuccessTrace = 2 := by
  refine ⟨fun e => ?_, fun e => ?_, by decide, by decide, by decide, by decide,
    by decide, by decide, by decide, by decide⟩ <;> cases e <;> decide

/-- Claim C8: the toggle request body keeps the task id, title and
description unchanged, flips the status to done exactly when it was
pending and to pending otherwise, and toggling twice restores the status
of any task whose status is pending or done. -/
theorem claim8_thm : ∀ t : Task,
    (toggleStatusBody t)._id = t._id ∧
    (toggleStatusBody t).title = t.title ∧
    (toggleStatusBody t).description = t.description ∧
    ((toggleStatusBody t).status = if t.status = "pending" then "done" else "pending") ∧
    ((t.status = "pending" ∨ t.status = "done") →
      (toggleStatusBody (toggleStatusBody t)).status = t.status) := by
  intro t
  refine ⟨rfl, rfl, rfl, rfl, ?_⟩
  intro h
  rcases h with h | h <;> simp [toggleStatusBody, h]

/-- Claim C8, witness: a concrete pending task toggled twice is pending
again. -/
theorem claim8_witness :
    ((Task.mk "1" "a" "b" "pending").status = "pending" ∨
      (Task.mk "1" "a" "b" "pending").status = "done") ∧
    (toggleStatusBody (toggleStatusBody (Task.mk "1" "a" "b" "pending"))).status =
      (Task.mk "1" "a" "b" "pending").status :=
  ⟨Or.inl rfl, (claim8_thm (Task.mk "1" "a" "b" "pending")).2.2.2.2 (Or.inl rfl)⟩

/-- Claim C9: every task-create request chosen by handleSubmit carries
status pending in its body, whatever the form state holds. -/
theorem claim9_thm : ∀ (s : AppState) (b : TaskCreateBody),
    handleSubmitRequest s = SubmitRequest.createReq b → b.status = "pending" := by
  intro s b h
  unfold handleSubmitRequest at h
  rcases he : s.editingTask with _ | t <;> rw [he] at h <;> simp at h
  subst h
  rfl

/-- Claim C9, witness: a concrete form state with no task being edited
issues a create request whose body has status pending. -/
theorem claim9_witness :
    handleSubmitRequest (AppState.mk none false [] "T" "D" none [] none false none) =
      SubmitRequest.createReq (TaskCreateBody.mk "T" "D" "pending") ∧
    (TaskCreateBody.mk "T" "D" "pending").status = "pending" :=
  ⟨rfl, claim9_thm (AppState.mk none false [] "T" "D" none [] none false none)
    (TaskCreateBody.mk "T" "D" "pending") rfl⟩

/-- Claim C10: when either validation of the auth form fails, the submit
guard blocks the request and the computed field errors are the ones set
on the form; the request branch runs only when both validations return no
error. -/
theorem claim10_thm : ∀ (i : Bool) (e p : String),
    ((validateEmail e ≠ "" ∨ validatePassword i p ≠ "") →
      authSubmitProceeds i e p = false ∧
      authSubmitFieldErrors i e p =
        [("email", validateEmail e), ("password", validatePassword i p)]) ∧
    (authSubmitProceeds i e p = true →
      validateEmail e = "" ∧ validatePassword i p = "") := by
  intro i e p
  constructor
  · intro h
    refine ⟨?_, rfl⟩
    rcases h with h | h <;> simp [authSubmitProceeds, truthy, h]
  · intro h
    simp [authSubmitProceeds, truthy] at h
    exact h

/-- Claim C10, witness: a concrete submit with an empty email is blocked
with the computed field errors set. -/
theorem claim10_witness :
    (validateEmail "" ≠ "" ∨ validatePassword true "pw" ≠ "") ∧
    (authSubmitProceeds true "" "pw" = false ∧
      authSubmitFieldErrors true "" "pw" =
        [("email", validateEmail ""), ("password", validatePassword true "pw")]) :=
  ⟨Or.inl (by decide), (claim10_thm true "" "pw").1 (Or.inl (by decide))⟩

end TaskClient
